import Mathlib

/-!
Verification of the pyvpmobil school-timetable client
(`src/pyvpmobil/__init__.py`, with the legacy duplicate `src/pyVPMobil/__init__.py`).

The shallow embedding models the parsed xmltodict payload (`json_data`) as a
typed structure: xmltodict maps a tag with one occurrence to a single value and
a tag with several occurrences to a list, which the Python code normalizes with
`isinstance(x, list)` checks; the embedding mirrors this with `OneOrMany`.
Python dicts holding a lesson's fields become association lists; exceptions
become `Except VPError`; the network fetch and the xmltodict call are external
collaborators and enter as parameters.
-/

namespace PyVPMobil

/-- Error taxonomy of the source (`VPMobilError` hierarchy plus the `ValueError`
raised by `_validate_inputs`).  Exception message strings are elided; only the
exception class matters for the claims.  The spec names `valueError`
"InvalidArgumentError" and `invalidClassName` "UnknownClassError".
`typeError` embeds an uncaught built-in `TypeError` escaping
`_find_class_data` — not part of the `VPMobilError` hierarchy. -/
inductive VPError where
  | valueError : VPError
  | vpMobilError : VPError
  | dataNotFoundError : VPError
  | invalidClassName : VPError
  | authenticationError : VPError
  | typeError : VPError
deriving DecidableEq

/-- xmltodict serializes a tag with a single occurrence as the bare value and a
tag with several occurrences as a list; the Python code distinguishes the two
with `isinstance(x, list)`. -/
inductive OneOrMany (α : Type) where
  | single : α → OneOrMany α
  | many : List α → OneOrMany α
deriving DecidableEq

/-- The `if not isinstance(x, list): x = [x]` normalization used throughout the
source. -/
def OneOrMany.toList {α : Type} : OneOrMany α → List α
  | .single a => [a]
  | .many l => l

/-- One lesson node of `class_json["Pl"]["Std"]`: an xmltodict mapping from tag
names (`"St"`, `"Beginn"`, ...) to string values, embedded as an association
list (Python dict keys are unique; `List.lookup` returns the value of the first
matching key, which agrees with dict lookup). -/
structure LessonNode where
  fields : List (String × String)
deriving DecidableEq

/-- Python `lesson.get(tag, default)`. -/
def LessonNode.get (l : LessonNode) (tag default : String) : String :=
  match l.fields.lookup tag with
  | some v => v
  | none => default

/-- One class node of `json_data["Klassen"]["Kl"]`: its short code
`school_class["Kurz"]` and its lesson list `school_class["Pl"]["Std"]`.
`Pl_Std = none` embeds a node where `"Pl"` or `"Std"` is missing
(a `KeyError` in `_parse_timetable`). -/
structure ClassNode where
  Kurz : String
  Pl_Std : Option (OneOrMany LessonNode)
deriving DecidableEq

/-- The `json_data` tree (`parse(xml)["VpMobil"]`) restricted to the tags the
library reads: `FreieTage/ft` (absent embeds the `.get(...).get("ft", [])`
default), `ZusatzInfo/ZiZeile` (absent embeds the `KeyError` path) and
`Klassen/Kl`.  `Klassen_Kl` keeps xmltodict's shape ambiguity: a document with
exactly one class serializes `Kl` as a single dict (`OneOrMany.single`), which
`_find_class_data` never normalizes to a list; `none` embeds a missing
`Klassen` or `Kl` tag (`KeyError`). -/
structure JsonData where
  FreieTage_ft : Option (OneOrMany String)
  ZusatzInfo_ZiZeile : Option (OneOrMany String)
  Klassen_Kl : Option (OneOrMany ClassNode)
deriving DecidableEq

/-- A parsed calendar date (`datetime` restricted to the date fields the
library produces). -/
structure Date where
  year : Nat
  month : Nat
  day : Nat
deriving DecidableEq

/-- Proleptic-Gregorian leap-year test, as Python `datetime` validates dates. -/
def isLeapYear (y : Nat) : Bool :=
  y % 4 == 0 && (y % 100 != 0 || y % 400 == 0)

/-- Days in a month, as Python `datetime` validates dates. -/
def daysInMonth (y m : Nat) : Nat :=
  if m = 2 then (if isLeapYear y then 29 else 28)
  else if m = 4 ∨ m = 6 ∨ m = 9 ∨ m = 11 then 30
  else 31

/-- Digit value of a character. -/
def digitVal (c : Char) : Nat := c.toNat - 48

/-- The `%y` group of CPython's `_strptime`: the regex `\d\d` — exactly two
digits, returning the value and the unconsumed rest. -/
def matchY : List Char → Option (Nat × List Char)
  | c1 :: c2 :: rest =>
    if c1.isDigit && c2.isDigit then some (10 * digitVal c1 + digitVal c2, rest)
    else none
  | _ => none

/-- The `%d` group of CPython's `_strptime`, alternatives in regex order:
`3[0-1]`, `[1-2]` then a digit, `0[1-9]`, `[1-9]`, and a space followed by
`[1-9]`.  The alternatives are mutually exclusive on their first one or two
characters, so the first matching branch is the regex's preferred one; nothing
follows the day group, so no backtracking re-enters it. -/
def matchD : List Char → Option (Nat × List Char)
  | c1 :: c2 :: rest =>
    if c1 = '3' && (c2 = '0' || c2 = '1') then some (30 + digitVal c2, rest)
    else if (c1 = '1' || c1 = '2') && c2.isDigit then
      some (10 * digitVal c1 + digitVal c2, rest)
    else if c1 = '0' && (c2.isDigit && c2 ≠ '0') then some (digitVal c2, rest)
    else if c1.isDigit && c1 ≠ '0' then some (digitVal c1, c2 :: rest)
    else if c1 = ' ' && (c2.isDigit && c2 ≠ '0') then some (digitVal c2, rest)
    else none
  | [c1] => if c1.isDigit && c1 ≠ '0' then some (digitVal c1, []) else none
  | [] => none

/-- The two 2-digit alternatives of the `%m` group (`1[0-2]` and `0[1-9]`);
they exclude each other on the first character, so at most one matches. -/
def matchM2 : List Char → Option (Nat × List Char)
  | c1 :: c2 :: rest =>
    if c1 = '1' && (c2 = '0' || c2 = '1' || c2 = '2') then some (10 + digitVal c2, rest)
    else if c1 = '0' && (c2.isDigit && c2 ≠ '0') then some (digitVal c2, rest)
    else none
  | _ => none

/-- The 1-digit alternative `[1-9]` of the `%m` group. -/
def matchM1 : List Char → Option (Nat × List Char)
  | c1 :: rest => if c1.isDigit && c1 ≠ '0' then some (digitVal c1, rest) else none
  | [] => none

/-- Month then day with the regex engine's backtracking: a 2-digit month whose
day group fails is retried as a 1-digit month before the whole match fails. -/
def matchMD (cs : List Char) : Option (Nat × Nat × List Char) :=
  match matchM2 cs with
  | some (m, rest) =>
    match matchD rest with
    | some (d, rest2) => some (m, d, rest2)
    | none =>
      match matchM1 cs with
      | some (m1, rest1) =>
        match matchD rest1 with
        | some (d, rest2) => some (m1, d, rest2)
        | none => none
      | none => none
  | none =>
    match matchM1 cs with
    | some (m1, rest1) =>
      match matchD rest1 with
      | some (d, rest2) => some (m1, d, rest2)
      | none => none
    | none => none

/-- The anchored-at-start match of the full `%y%m%d` pattern, returning the
captured values and the unconsumed tail. -/
def matchYMD (cs : List Char) : Option (Nat × Nat × Nat × List Char) :=
  match matchY cs with
  | none => none
  | some (y, rest) =>
    match matchMD rest with
    | none => none
    | some (m, d, rest2) => some (y, m, d, rest2)

/-- Model of `datetime.strptime(token, "%y%m%d")`, following CPython's
`_strptime`: match the concatenated group regexes (so the lenient 1-digit
month and day forms are accepted, e.g. `"2411"` parses as 2024-01-01), raise
`ValueError` (`none` here) when the pattern does not match or leaves
unconverted data; map the 2-digit year by the fixed century rule (00-68 means
20xx, 69-99 means 19xx); finally `datetime` construction validates the day
against the month's length (leap years included).  Digits are modelled as the
ASCII digits the feed uses. -/
def strptime_yymmdd (s : String) : Option Date :=
  match matchYMD s.toList with
  | none => none
  | some (yy, mm, dd, rest) =>
    if rest.isEmpty then
      let year := if yy ≤ 68 then 2000 + yy else 1900 + yy
      if dd ≤ daysInMonth year mm then some ⟨year, mm, dd⟩ else none
    else none

/-- The list comprehension
`[datetime.strptime(date, "%y%m%d") for date in free_days_data]` evaluated
inside the `try` of `_parse_off_days`: tokens are parsed left to right and the
first `ValueError` aborts the whole comprehension. -/
def mapStrptime : List String → Option (List Date)
  | [] => some []
  | t :: ts =>
    match strptime_yymmdd t with
    | none => none
    | some d =>
      match mapStrptime ts with
      | none => none
      | some ds => some (d :: ds)

/-- Model of `SchoolTimetable._parse_off_days`: read `FreieTage/ft` (defaulting to the
empty list), wrap a bare string into a singleton list, parse each token; the
`except (KeyError, ValueError): return []` clause turns any failing token into
an empty result. -/
def parse_off_days (j : JsonData) : List Date :=
  let free_days_data : List String :=
    match j.FreieTage_ft with
    | none => []
    | some x => x.toList
  match mapStrptime free_days_data with
  | some ds => ds
  | none => []

/-- Model of `SchoolTimetable._parse_extra_info`: a missing `ZusatzInfo/ZiZeile`
(`KeyError`) yields `None`; a list of lines is joined with a newline; a bare
string is returned as is. -/
def parse_extra_info (j : JsonData) : Option String :=
  match j.ZusatzInfo_ZiZeile with
  | none => none
  | some (.many ls) => some (String.intercalate "\n" ls)
  | some (.single s) => some s

/-- Python `str.lower()`, modelled on the ASCII case mapping (`Char.toLower`
lowers exactly the letters A-Z), which covers the class codes and subject
names of the format. -/
def pyLower (s : String) : String :=
  ⟨s.data.map Char.toLower⟩

/-- The structured lesson dict built by `ClassTimetable._parse_timetable`
(keys `"period"`, `"start_time"`, `"end_time"`, `"subject"`, `"teacher"`,
`"classroom"`, `"info"`).  Every field is a `String`, mirroring that the
source never stores `None` in these slots. -/
structure Lesson where
  period : String
  start_time : String
  end_time : String
  subject : String
  teacher : String
  classroom : String
  info : String
deriving DecidableEq

/-- The dict literal built for one lesson in `_parse_timetable`:
`lesson.get(tag, "")` for each of the seven fixed tags. -/
def parse_lesson (l : LessonNode) : Lesson where
  period := l.get "St" ""
  start_time := l.get "Beginn" ""
  end_time := l.get "Ende" ""
  subject := l.get "Fa" ""
  teacher := l.get "Le" ""
  classroom := l.get "Ra" ""
  info := l.get "If" ""

/-- Model of `ClassTimetable._parse_timetable`: read `class_json["Pl"]["Std"]`
(a `KeyError`/`TypeError` is re-raised as `VPMobilError`), normalize a single
lesson node to a one-element list, and build the structured lesson dicts. -/
def parse_timetable (c : ClassNode) : Except VPError (List Lesson) :=
  match c.Pl_Std with
  | none => Except.error VPError.vpMobilError
  | some std => Except.ok (std.toList.map parse_lesson)

/-- Model of `ClassTimetable._find_class_data`: lower-case the requested name
(done in `__init__`: `self.class_name = class_name.lower()`), read
`json_data["Klassen"]["Kl"]` (a `KeyError` is caught and re-raised as
`VPMobilError`), scan it in order and return at the first node whose
lower-cased `"Kurz"` equals the request; raise `InvalidClassName` when the
scan finds nothing.  When `Kl` is xmltodict's single-class dict, the `for`
loop iterates the dict's keys (strings such as `"Kurz"`), so
`school_class["Kurz"]` indexes a `str` with a `str` and raises `TypeError` at
the first key — which the `except KeyError` clause does not catch (a class
node always has keys, mirrored by `ClassNode` always having a `Kurz` field). -/
def find_class_data (class_name : String) (kl : Option (OneOrMany ClassNode)) :
    Except VPError ClassNode :=
  match kl with
  | none => Except.error VPError.vpMobilError
  | some (.single _) => Except.error VPError.typeError
  | some (.many classes) =>
    let name := pyLower class_name
    match classes.find? (fun c => pyLower c.Kurz == name) with
    | some c => Except.ok c
    | none => Except.error VPError.invalidClassName

/-- Contiguous-sublist test on lists: `needle` occurs at the front or inside
the tail. -/
def listContains {α : Type} [BEq α] (needle : List α) : List α → Bool
  | [] => needle.isEmpty
  | a :: t => needle.isPrefixOf (a :: t) || listContains needle t

/-- Python's substring test `needle in haystack`. -/
def strContains (haystack needle : String) : Bool :=
  listContains needle.toList haystack.toList

/-- Model of `ClassTimetable.get_lessons_by_subject`: keep, in order, the lessons whose
lower-cased subject contains the lower-cased query as a substring. -/
def get_lessons_by_subject (subject : String) (timetable : List Lesson) :
    List Lesson :=
  timetable.filter (fun lesson => strContains (pyLower lesson.subject) (pyLower subject))

/-- Model of `SchoolTimetable._validate_inputs`.  `date_is_datetime` embeds the dynamic
`isinstance(date, datetime)` check (a `datetime` value is always a valid
calendar date, so passing an invalid date means passing a non-`datetime`);
`isinstance(school_code, int)` is guaranteed by the embedding type.  The source
raises `ValueError` (the spec calls it `InvalidArgumentError`). -/
def validate_inputs (date_is_datetime : Bool) (school_code : Int)
    (username password : String) : Except VPError Unit :=
  if date_is_datetime = false then Except.error VPError.valueError
  else if school_code ≤ 0 then Except.error VPError.valueError
  else if username = "" ∨ password = "" then Except.error VPError.valueError
  else Except.ok ()

/-- The marker string `_fetch_data` scans response bodies for. -/
def pageNotFoundMarker : String := "Seite nicht gefunden"

/-- Model of `SchoolTimetable._fetch_data`: the HTTP GET is an external collaborator,
entering as its outcome `fetch_result` (`none` embeds a
`requests.RequestException`, re-raised as `VPMobilError`; `some body` a 2xx
body).  A body containing `"Seite nicht gefunden"` raises
`DataNotFoundError`. -/
def fetch_data (fetch_result : Option String) : Except VPError String :=
  match fetch_result with
  | none => Except.error VPError.vpMobilError
  | some xml_data =>
    if strContains xml_data pageNotFoundMarker then
      Except.error VPError.dataNotFoundError
    else Except.ok xml_data

/-- The state a successfully constructed `SchoolTimetable` carries. -/
structure SchoolTimetableState where
  json_data : JsonData
  off_days : List Date
  extra_info : Option String
deriving DecidableEq

/-- Model of `SchoolTimetable._parse_data`: the xmltodict call plus the `["VpMobil"]`
root access enter as the collaborator `xml_parse` (`none` embeds any exception,
re-raised as `VPMobilError`), then the off-day and extra-info parsers run. -/
def parse_data (xml_parse : String → Option JsonData) (xml_data : String) :
    Except VPError SchoolTimetableState :=
  match xml_parse xml_data with
  | none => Except.error VPError.vpMobilError
  | some j =>
    Except.ok { json_data := j, off_days := parse_off_days j, extra_info := parse_extra_info j }

/-- Model of `SchoolTimetable.__init__`: validate the inputs, then fetch, then parse —
in this order, so a validation failure precedes any network activity and a
fetch failure precedes any parsing. -/
def SchoolTimetable.init (date_is_datetime : Bool) (school_code : Int)
    (username password : String) (fetch_result : Option String)
    (xml_parse : String → Option JsonData) : Except VPError SchoolTimetableState :=
  match validate_inputs date_is_datetime school_code username password with
  | Except.error e => Except.error e
  | Except.ok () =>
    match fetch_data fetch_result with
    | Except.error e => Except.error e
    | Except.ok xml_data => parse_data xml_parse xml_data

end PyVPMobil

deriving instance DecidableEq for Except

namespace PyVPMobil

/-! Helper lemmas. -/

theorem isPrefixOf_true (l₁ l₂ : List Char) : l₁.isPrefixOf l₂ = true ↔ l₁ <+: l₂ :=
  List.isPrefixOf_iff_prefix

theorem listContains_spec (n h : List Char) : listContains n h = true ↔ n <:+: h := by
  induction h with
  | nil =>
    simp only [listContains, List.isEmpty_iff]
    constructor
    · rintro rfl; exact List.nil_infix
    · intro hh; exact List.eq_nil_of_infix_nil hh
  | cons a t ih =>
    simp only [listContains, Bool.or_eq_true, isPrefixOf_true, ih]
    exact Iff.symm List.infix_cons_iff

theorem listContains_nil_left (l : List Char) : listContains ([] : List Char) l = true := by
  cases l <;> simp [listContains, List.isPrefixOf, List.isEmpty]

/-! Claim theorems. -/

/-- C1.  Class lookup is case-insensitive: two requested codes with the same
lower-cased form produce identical lookup results on every shape of the class
container — both fail in the same way, or both return the same class node
(hence the same lesson list). -/
theorem claim1_lookup_case_insensitive (kl : Option (OneOrMany ClassNode))
    (c1 c2 : String) (h : pyLower c1 = pyLower c2) :
    find_class_data c1 kl = find_class_data c2 kl := by
  cases kl with
  | none => rfl
  | some x =>
    cases x with
    | single c => rfl
    | many classes =>
      unfold find_class_data
      rw [h]

/-- Witness for C1 at the concrete inputs of the spec example. -/
theorem claim1_witness :
    pyLower "7A" = pyLower "7a" ∧
    find_class_data "7A"
        (some (OneOrMany.many [⟨"7a", some (OneOrMany.many [⟨[("Fa", "Ma")]⟩])⟩])) =
      find_class_data "7a"
        (some (OneOrMany.many [⟨"7a", some (OneOrMany.many [⟨[("Fa", "Ma")]⟩])⟩])) :=
  ⟨by decide, claim1_lookup_case_insensitive _ "7A" "7a" (by decide)⟩

/-- C4.  Extra info: a document without the `ZusatzInfo/ZiZeile` section has
`extra_info = none` (distinct from `some ""`); several notice lines are joined
with a newline; a single line — whether serialized as a bare string or as a
one-element list — yields exactly that line, with no trailing newline. -/
theorem claim4_extra_info (ft : Option (OneOrMany String))
    (kl : Option (OneOrMany ClassNode)) :
    parse_extra_info ⟨ft, none, kl⟩ = none ∧
    (∀ s : String, parse_extra_info ⟨ft, some (OneOrMany.single s), kl⟩ = some s) ∧
    (∀ ls : List String,
      parse_extra_info ⟨ft, some (OneOrMany.many ls), kl⟩ =
        some (String.intercalate "\n" ls)) ∧
    (∀ s : String, parse_extra_info ⟨ft, some (OneOrMany.many [s]), kl⟩ = some s) := by
  refine ⟨rfl, fun _ => rfl, fun _ => rfl, fun s => ?_⟩
  simp [parse_extra_info, String.intercalate, String.intercalate.go]

/-- C5.  Building a class timetable succeeds for arbitrary lesson nodes (in
particular nodes missing any of the seven field tags), and each absent tag is
mapped to the empty string.  The `Lesson` fields have type `String`, so no
field of a built entry can be `None`. -/
theorem claim5_lesson_defaults :
    (∀ (kurz : String) (nodes : List LessonNode),
      parse_timetable ⟨kurz, some (OneOrMany.many nodes)⟩ =
        Except.ok (nodes.map parse_lesson)) ∧
    (∀ l : LessonNode,
      (l.fields.lookup "St" = none → (parse_lesson l).period = "") ∧
      (l.fields.lookup "Beginn" = none → (parse_lesson l).start_time = "") ∧
      (l.fields.lookup "Ende" = none → (parse_lesson l).end_time = "") ∧
      (l.fields.lookup "Fa" = none → (parse_lesson l).subject = "") ∧
      (l.fields.lookup "Le" = none → (parse_lesson l).teacher = "") ∧
      (l.fields.lookup "Ra" = none → (parse_lesson l).classroom = "") ∧
      (l.fields.lookup "If" = none → (parse_lesson l).info = "")) := by
  refine ⟨fun _ _ => rfl, fun l => ?_⟩
  refine ⟨fun h => ?_, fun h => ?_, fun h => ?_, fun h => ?_, fun h => ?_, fun h => ?_,
    fun h => ?_⟩ <;> simp [parse_lesson, LessonNode.get, h]

/-- Witness for C5: a lesson node with no fields at all builds an entry whose
every field is the empty string. -/
theorem claim5_witness :
    parse_timetable ⟨"7a", some (OneOrMany.many [⟨[]⟩])⟩ =
      Except.ok [parse_lesson ⟨[]⟩] ∧
    (parse_lesson ⟨[]⟩).period = "" ∧
    (parse_lesson ⟨[]⟩).start_time = "" ∧
    (parse_lesson ⟨[]⟩).end_time = "" ∧
    (parse_lesson ⟨[]⟩).subject = "" ∧
    (parse_lesson ⟨[]⟩).teacher = "" ∧
    (parse_lesson ⟨[]⟩).classroom = "" ∧
    (parse_lesson ⟨[]⟩).info = "" :=
  ⟨claim5_lesson_defaults.1 "7a" [⟨[]⟩],
   (claim5_lesson_defaults.2 ⟨[]⟩).1 rfl,
   (claim5_lesson_defaults.2 ⟨[]⟩).2.1 rfl,
   (claim5_lesson_defaults.2 ⟨[]⟩).2.2.1 rfl,
   (claim5_lesson_defaults.2 ⟨[]⟩).2.2.2.1 rfl,
   (claim5_lesson_defaults.2 ⟨[]⟩).2.2.2.2.1 rfl,
   (claim5_lesson_defaults.2 ⟨[]⟩).2.2.2.2.2.1 rfl,
   (claim5_lesson_defaults.2 ⟨[]⟩).2.2.2.2.2.2 rfl⟩

/-- C10.  The subject search with the empty query is the identity on the
timetable: the empty string is a substring of every subject, so every lesson
is kept, in order. -/
theorem claim10_empty_query (timetable : List Lesson) :
    get_lessons_by_subject "" timetable = timetable := by
  unfold get_lessons_by_subject
  rw [ List.filter_eq_self]
  intro lesson _
  exact listContains_nil_left (pyLower lesson.subject).toList

theorem mapStrptime_of_all_valid (ts : List String)
    (h : ∀ t ∈ ts, (strptime_yymmdd t).isSome = true) :
    mapStrptime ts = some (ts.filterMap strptime_yymmdd) := by
  induction ts with
  | nil => rfl
  | cons t ts ih =>
    have ht : (strptime_yymmdd t).isSome = true := h t (List.mem_cons_self t ts)
    obtain ⟨d, hd⟩ := Option.isSome_iff_exists.mp ht
    have hrest := ih (fun x hx => h x (List.mem_cons_of_mem t hx))
    simp [mapStrptime, hd, hrest, List.filterMap_cons]

theorem mapStrptime_of_bad_token (ts : List String)
    (h : ∃ t ∈ ts, strptime_yymmdd t = none) :
    mapStrptime ts = none := by
  induction ts with
  | nil => simp at h
  | cons t ts ih =>
    obtain ⟨x, hx, hbad⟩ := h
    rcases List.mem_cons.mp hx with rfl | hx
    · simp [mapStrptime, hbad]
    · unfold mapStrptime
      rw [ih ⟨x, hx, hbad⟩]
      cases strptime_yymmdd t <;> rfl

/-- C2 counterexample: in the holiday list `["240101", "bad"]` the first token
is a valid fixed-width date (it parses to 2024-01-01) and the second is not,
yet `_parse_off_days` returns the empty list — the valid token is NOT kept, so
a malformed token does empty the off-day list. -/
theorem claim2_counterexample :
    strptime_yymmdd "240101" = some ⟨2024, 1, 1⟩ ∧
    strptime_yymmdd "bad" = none ∧
    parse_off_days ⟨some (OneOrMany.many ["240101", "bad"]), none, none⟩ = [] := by
  refine ⟨by decide, by decide, ?_⟩
  decide

/-- C2 amended: parsing never fails the document (`parse_off_days` is total
and `__init__` proceeds), each valid 6-digit token parses to its calendar date
under the fixed century rule, and when every token is valid the whole list is
parsed in order; but unparsable tokens are not dropped individually — one
unparsable token empties the entire off-day list. -/
theorem claim2_off_days_all_or_nothing (z : Option (OneOrMany String))
    (kl : Option (OneOrMany ClassNode)) (tokens : List String) :
    ((∀ t ∈ tokens, (strptime_yymmdd t).isSome = true) →
      parse_off_days ⟨some (OneOrMany.many tokens), z, kl⟩ =
        tokens.filterMap strptime_yymmdd) ∧
    ((∃ t ∈ tokens, strptime_yymmdd t = none) →
      parse_off_days ⟨some (OneOrMany.many tokens), z, kl⟩ = []) ∧
    strptime_yymmdd "240101" = some ⟨2024, 1, 1⟩ := by
  refine ⟨fun h => ?_, fun h => ?_, by decide⟩
  · simp [parse_off_days, OneOrMany.toList, mapStrptime_of_all_valid tokens h]
  · simp [parse_off_days, OneOrMany.toList, mapStrptime_of_bad_token tokens h]

/-- Witness for the amended C2 at concrete inputs: an all-valid list is parsed
in order, and a list with one bad token collapses to the empty list. -/
theorem claim2_witness :
    parse_off_days ⟨some (OneOrMany.many ["240101", "240102"]), none, none⟩ =
      ["240101", "240102"].filterMap strptime_yymmdd ∧
    parse_off_days ⟨some (OneOrMany.many ["240101", "bad"]), none, none⟩ = [] ∧
    strptime_yymmdd "240101" = some ⟨2024, 1, 1⟩ :=
  ⟨(claim2_off_days_all_or_nothing none none ["240101", "240102"]).1 (by decide),
   (claim2_off_days_all_or_nothing none none ["240101", "bad"]).2.1
     ⟨"bad", by decide, by decide⟩,
   (claim2_off_days_all_or_nothing none none []).2.2⟩

/-- C3 counterexample: with two class nodes both coded `"7a"` but holding
different lesson lists, lookup returns the entry built from the FIRST node,
not the last — the earlier entry is not overwritten. -/
theorem claim3_counterexample :
    find_class_data "7a"
      (some (OneOrMany.many
        [⟨"7a", some (OneOrMany.many [⟨[("Fa", "Mathe")]⟩])⟩,
         ⟨"7a", some (OneOrMany.many [⟨[("Fa", "Kunst")]⟩])⟩])) =
      Except.ok ⟨"7a", some (OneOrMany.many [⟨[("Fa", "Mathe")]⟩])⟩ ∧
    (⟨"7a", some (OneOrMany.many [⟨[("Fa", "Mathe")]⟩])⟩ : ClassNode) ≠
      ⟨"7a", some (OneOrMany.many [⟨[("Fa", "Kunst")]⟩])⟩ ∧
    parse_timetable ⟨"7a", some (OneOrMany.many [⟨[("Fa", "Mathe")]⟩])⟩ ≠
      parse_timetable ⟨"7a", some (OneOrMany.many [⟨[("Fa", "Kunst")]⟩])⟩ := by
  refine ⟨?_, by decide, by decide⟩
  decide

/-- C3 amended: when several class nodes share a code (case-insensitively),
lookup returns the entry built from the first such node in source order
(first-wins): the scan stops at the first match, whatever follows it. -/
theorem claim3_first_match_wins (cn : String) (pre : List ClassNode)
    (c : ClassNode) (post : List ClassNode)
    (hpre : ∀ c2 ∈ pre, pyLower c2.Kurz ≠ pyLower cn)
    (hc : pyLower c.Kurz = pyLower cn) :
    find_class_data cn (some (OneOrMany.many (pre ++ c :: post))) = Except.ok c := by
  have hfind : List.find? (fun c2 => pyLower c2.Kurz == pyLower cn)
      (pre ++ c :: post) = some c := by
    induction pre with
    | nil =>
      rw [List.nil_append]
      exact List.find?_cons_of_pos post (beq_iff_eq.mpr hc)
    | cons a t ih =>
      have ha : pyLower a.Kurz ≠ pyLower cn := hpre a (List.mem_cons_self a t)
      rw [List.cons_append, List.find?_cons_of_neg]
      · exact ih (fun x hx => hpre x (List.mem_cons_of_mem a hx))
      · simp [ha]
  simp [find_class_data, hfind]

/-- Witness for the amended C3: the first of two identically coded nodes wins,
with a non-matching node in front. -/
theorem claim3_witness :
    find_class_data "7A"
      (some (OneOrMany.many
        [⟨"8b", none⟩,
         ⟨"7a", some (OneOrMany.many [⟨[("Fa", "Mathe")]⟩])⟩,
         ⟨"7a", some (OneOrMany.many [⟨[("Fa", "Kunst")]⟩])⟩])) =
      Except.ok ⟨"7a", some (OneOrMany.many [⟨[("Fa", "Mathe")]⟩])⟩ :=
  claim3_first_match_wins "7A" [⟨"8b", none⟩]
    ⟨"7a", some (OneOrMany.many [⟨[("Fa", "Mathe")]⟩])⟩
    [⟨"7a", some (OneOrMany.many [⟨[("Fa", "Kunst")]⟩])⟩]
    (by decide) (by decide)

/-- C6.  A fetched body containing the upstream page-not-found marker makes
construction fail with `DataNotFoundError`, whatever the inputs that passed
validation and whatever the XML parser would have produced — the body is never
parsed into a document. -/
theorem claim6_page_not_found_marker (d : Bool) (sc : Int) (u p body : String)
    (hv : validate_inputs d sc u p = Except.ok ())
    (hm : strContains body pageNotFoundMarker = true) :
    ∀ xml_parse : String → Option JsonData,
      SchoolTimetable.init d sc u p (some body) xml_parse =
        Except.error VPError.dataNotFoundError := by
  intro xp
  simp [SchoolTimetable.init, hv, fetch_data, hm]

/-- Witness for C6: a concrete body equal to the marker string. -/
theorem claim6_witness :
    validate_inputs true 1 "u" "p" = Except.ok () ∧
    strContains "Seite nicht gefunden" pageNotFoundMarker = true ∧
    SchoolTimetable.init true 1 "u" "p" (some "Seite nicht gefunden")
        (fun _ => none) =
      Except.error VPError.dataNotFoundError :=
  ⟨by decide, by decide,
   claim6_page_not_found_marker true 1 "u" "p" "Seite nicht gefunden"
     (by decide) (by decide) (fun _ => none)⟩

theorem validate_inputs_invalid (d : Bool) (sc : Int) (u p : String)
    (h : d = false ∨ sc ≤ 0 ∨ u = "" ∨ p = "") :
    validate_inputs d sc u p = Except.error VPError.valueError := by
  unfold validate_inputs
  split_ifs with h1 h2 h3
  · rfl
  · rfl
  · rfl
  · exfalso
    rcases h with h | h | h | h
    · exact h1 h
    · exact h2 h
    · exact h3 (Or.inl h)
    · exact h3 (Or.inr h)

/-- C7.  Invalid constructor inputs (non-`datetime` date, non-positive school
code, empty username or password) make construction fail with the validation
error, for every possible fetch outcome and parser — so validation precedes
any network call. -/
theorem claim7_invalid_inputs_fail_fast (d : Bool) (sc : Int) (u p : String)
    (h : d = false ∨ sc ≤ 0 ∨ u = "" ∨ p = "") :
    ∀ (fetch_result : Option String) (xml_parse : String → Option JsonData),
      SchoolTimetable.init d sc u p fetch_result xml_parse =
        Except.error VPError.valueError := by
  intro fr xp
  simp [SchoolTimetable.init, validate_inputs_invalid d sc u p h]

/-- Witness for C7: an empty username fails construction even though the fetch
would have returned a body. -/
theorem claim7_witness :
    ((true = false) ∨ (1 : Int) ≤ 0 ∨ "" = "" ∨ "p" = "") ∧
    SchoolTimetable.init true 1 "" "p" (some "xml") (fun _ => none) =
      Except.error VPError.valueError :=
  ⟨Or.inr (Or.inr (Or.inl rfl)),
   claim7_invalid_inputs_fail_fast true 1 "" "p"
     (Or.inr (Or.inr (Or.inl rfl))) (some "xml") (fun _ => none)⟩

/-- C8 counterexample: a document holding exactly one class serializes the
classes container as a single dict, which `_find_class_data` iterates by keys
and so raises an uncaught `TypeError` — here the stored code `"7a"` matches
the request case-insensitively, yet lookup neither succeeds nor raises
`InvalidClassName`; a non-matching request fails the same way instead of
raising `InvalidClassName`.  Such a document constructs successfully, since
construction never touches the classes container. -/
theorem claim8_counterexample :
    pyLower (⟨"7a", none⟩ : ClassNode).Kurz = pyLower "7A" ∧
    find_class_data "7A" (some (OneOrMany.single ⟨"7a", none⟩)) =
      Except.error VPError.typeError ∧
    find_class_data "8b" (some (OneOrMany.single ⟨"7a", none⟩)) =
      Except.error VPError.typeError := by
  refine ⟨by decide, ?_, ?_⟩ <;> rfl

/-- C8 amended: when the classes container is a list of class nodes, lookup
raises `InvalidClassName` (the spec's `UnknownClassError`) exactly when no
stored code matches case-insensitively and returns a matching stored node
whenever one exists; but when the container is xmltodict's single-class dict
shape, lookup raises an uncaught `TypeError` for every requested code, and a
missing container raises `VPMobilError`. -/
theorem claim8_unknown_class (cn : String) (classes : List ClassNode) :
    ((∀ c ∈ classes, pyLower c.Kurz ≠ pyLower cn) →
      find_class_data cn (some (OneOrMany.many classes)) =
        Except.error VPError.invalidClassName) ∧
    ((∃ c ∈ classes, pyLower c.Kurz = pyLower cn) →
      ∃ c, c ∈ classes ∧ pyLower c.Kurz = pyLower cn ∧
        find_class_data cn (some (OneOrMany.many classes)) = Except.ok c) ∧
    (∀ c : ClassNode,
      find_class_data cn (some (OneOrMany.single c)) =
        Except.error VPError.typeError) ∧
    find_class_data cn none = Except.error VPError.vpMobilError := by
  refine ⟨?_, ?_, fun c => rfl, rfl⟩
  · intro h
    have hf : List.find? (fun c => pyLower c.Kurz == pyLower cn) classes = none := by
      rw [List.find?_eq_none]
      intro x hx
      simp [h x hx]
    simp [find_class_data, hf]
  · intro h
    obtain ⟨c0, hc0, heq⟩ := h
    have hsome : (List.find? (fun c => pyLower c.Kurz == pyLower cn) classes).isSome := by
      rw [List.find?_isSome]
      exact ⟨c0, hc0, beq_iff_eq.mpr heq⟩
    obtain ⟨c, hc⟩ := Option.isSome_iff_exists.mp hsome
    have hp := List.find?_some hc
    simp only [beq_iff_eq] at hp
    refine ⟨c, List.mem_of_find?_eq_some hc, hp, ?_⟩
    simp [find_class_data, hc]

/-- Witness for the amended C8: lookup in an empty class list fails with the
unknown-class error, and lookup of `"7A"` against a stored `"7a"` in a
list-shaped container succeeds. -/
theorem claim8_witness :
    find_class_data "9z" (some (OneOrMany.many [])) =
      Except.error VPError.invalidClassName ∧
    (∃ c, c ∈ [(⟨"7a", none⟩ : ClassNode)] ∧ pyLower c.Kurz = pyLower "7A" ∧
      find_class_data "7A" (some (OneOrMany.many [(⟨"7a", none⟩ : ClassNode)])) =
        Except.ok c) :=
  ⟨(claim8_unknown_class "9z" []).1 (by simp),
   (claim8_unknown_class "7A" [(⟨"7a", none⟩ : ClassNode)]).2.1
     ⟨⟨"7a", none⟩, by simp, by decide⟩⟩

/-- C9.  The subject search returns exactly the lessons whose lower-cased
subject contains the lower-cased query as a contiguous substring — stated via
the mathematical infix relation, with source order preserved (the result is a
sublist of the timetable) — and the spec's example holds. -/
theorem claim9_subject_search (timetable : List Lesson) (q : String) :
    (∀ l : Lesson, l ∈ get_lessons_by_subject q timetable ↔
      l ∈ timetable ∧ (pyLower q).toList <:+: (pyLower l.subject).toList) ∧
    (get_lessons_by_subject q timetable).Sublist timetable ∧
    get_lessons_by_subject "math"
      [⟨"1", "", "", "Mathematics", "", "", ""⟩, ⟨"2", "", "", "Art", "", "", ""⟩] =
      [⟨"1", "", "", "Mathematics", "", "", ""⟩] := by
  refine ⟨fun l => ?_, List.filter_sublist _, by decide⟩
  simp [get_lessons_by_subject, List.mem_filter, strContains, listContains_spec]

end PyVPMobil
